import Mathlib

/-!
Formal model of the hospital noise-level monitor `Projeto_Final_Edcarllos.c`.

Conventions of the shallow embedding:
* C `float` arithmetic is modelled exactly over `ℚ` (and over `ℝ` where
  `sqrtf` / `log10f` occur); decimal literals such as `3.3f`, `0.95f`,
  `0.05f`, the calibration `0.00002f` and the epsilon `1e-12f` are taken
  at face value as rationals.
* the 32-bit microsecond clock `time_us_32()` is modelled as a natural
  number of microseconds reduced modulo `2^32`; unsigned subtraction
  `now - last` becomes `(now + 2^32 - last) % 2^32`.
* C arrays become functions out of `Fin`; `static` locals and globals
  become explicit state records threaded through the step functions;
  a C cast `(int)x` on a nonnegative float is truncation toward zero.
-/

namespace Ruido

/-- Operating mode (`enum Modo` in the source, line 73). -/
inductive Modo where
  | MONITORAMENTO
  | ALERTA
  | ESTATISTICAS
deriving DecidableEq, Repr

open Modo

/-- The alert condition computed each cycle in `main` (line 124):
`(db > limite_atual_db) && (modo_atual != ESTATISTICAS)`. -/
def alerta_cond (db limite_atual_db : ℚ) (modo_atual : Modo) : Bool :=
  decide (db > limite_atual_db) && decide (modo_atual ≠ ESTATISTICAS)

/-- `verificar_joystick` (lines 276-288): the raw ADC reading is
normalised by `4096.0f`; below `0.3` selects monitoring, above `0.7`
selects statistics, the dead zone keeps the current mode. -/
def verificar_joystick (modo_atual : Modo) (leitura_adc : ℕ) : Modo :=
  let posicao_x : ℚ := leitura_adc / 4096
  if posicao_x < 3/10 then MONITORAMENTO
  else if posicao_x > 7/10 then ESTATISTICAS
  else modo_atual

/-- PWM slice configuration relevant to the buzzer: wrap value, channel
level and the enabled flag. -/
structure PwmConfig where
  wrap : ℕ
  level : ℕ
  enabled : Bool
deriving DecidableEq, Repr

/-- `125000000 / 2500 / 16` with C integer division (line 303). -/
def wrap_val : ℕ := 125000000 / 2500 / 16

/-- Buzzer state: the `static bool estado_anterior` of `acionar_buzzer`,
the global `contador_alertas`, and the PWM configuration it drives. -/
structure BuzzerEstado where
  estado_anterior : Bool
  contador_alertas : ℕ
  pwm : PwmConfig
deriving DecidableEq, Repr

/-- `acionar_buzzer` (lines 296-316): returns unchanged when the
condition equals the previous one; on a rise it programs the PWM and
increments the counter; on a fall it only disables the PWM. -/
def acionar_buzzer (st : BuzzerEstado) (estado : Bool) : BuzzerEstado :=
  if estado = st.estado_anterior then st
  else if estado then
    { estado_anterior := estado,
      contador_alertas :=
        if !st.estado_anterior then st.contador_alertas + 1
        else st.contador_alertas,
      pwm := { wrap := wrap_val, level := wrap_val / 2, enabled := true } }
  else
    { st with estado_anterior := estado,
              pwm := { st.pwm with enabled := false } }

/-- Number of false→true transitions along a sequence of cycle
conditions, given the previous condition (the claim's counting of
off→on edges, stated independently of the code). -/
def conta_subidas (anterior : Bool) : List Bool → ℕ
  | [] => 0
  | c :: cs => (if c && !anterior then 1 else 0) + conta_subidas c cs

end Ruido

namespace Ruido

/-- C1 sequence law, step case. -/
theorem acionar_buzzer_contador (st : BuzzerEstado) (estado : Bool) :
    (acionar_buzzer st estado).contador_alertas =
      st.contador_alertas +
        (if estado && !st.estado_anterior then 1 else 0) := by
  unfold acionar_buzzer
  cases estado <;> cases h : st.estado_anterior <;> simp [h]

theorem acionar_buzzer_anterior (st : BuzzerEstado) (estado : Bool) :
    (acionar_buzzer st estado).estado_anterior = estado := by
  unfold acionar_buzzer
  cases estado <;> cases h : st.estado_anterior <;> simp [h]

theorem acionar_buzzer_fold (condicoes : List Bool) (st : BuzzerEstado) :
    (condicoes.foldl acionar_buzzer st).contador_alertas =
      st.contador_alertas + conta_subidas st.estado_anterior condicoes := by
  induction condicoes generalizing st with
  | nil => simp [conta_subidas]
  | cons c cs ih =>
      simp only [List.foldl_cons, conta_subidas, ih]
      rw [acionar_buzzer_contador, acionar_buzzer_anterior]
      cases c <;> cases h : st.estado_anterior <;> simp [h, Nat.add_assoc]

end Ruido

namespace Ruido

/-- The circular history of dB readings: `float historico[128]` plus the
`uint8_t indice_historico` write index (lines 74-75). Both are
zero-initialised globals. -/
structure Historico where
  dados : Fin 128 → ℚ
  indice : Fin 128

/-- `atualizar_historico` (lines 336-339): store the reading at the
write index, then advance the index modulo 128 (`Fin 128` addition). -/
def atualizar_historico (h : Historico) (db : ℚ) : Historico :=
  { dados := fun j => if j = h.indice then db else h.dados j,
    indice := h.indice + 1 }

theorem historico_fold_indice (vs : List ℚ) (h : Historico) :
    (vs.foldl atualizar_historico h).indice =
      h.indice + (vs.length : Fin 128) := by
  induction vs generalizing h with
  | nil => simp
  | cons v vs ih =>
      simp only [List.foldl_cons, ih, atualizar_historico, List.length_cons]
      push_cast
      ring

theorem historico_fold_intocado (vs : List ℚ) (h : Historico) (p : Fin 128)
    (hp : ∀ t : ℕ, t < vs.length → h.indice + (t : Fin 128) ≠ p) :
    (vs.foldl atualizar_historico h).dados p = h.dados p := by
  induction vs generalizing h with
  | nil => rfl
  | cons v vs ih =>
      have h0 : h.indice ≠ p := by
        have := hp 0 (by simp)
        simpa using this
      rw [List.foldl_cons, ih]
      · show (if p = h.indice then v else h.dados p) = h.dados p
        simp [Ne.symm h0]
      · intro t ht
        have h1 := hp (t + 1) (by simpa using Nat.succ_lt_succ ht)
        show (atualizar_historico h v).indice + (t : Fin 128) ≠ p
        simpa [atualizar_historico, Nat.cast_add, add_assoc, add_comm,
               add_left_comm] using h1

theorem historico_fold_preenche (vs : List ℚ) (h : Historico)
    (hlen : vs.length ≤ 128) (t : ℕ) (ht : t < vs.length) :
    (vs.foldl atualizar_historico h).dados (h.indice + (t : Fin 128)) =
      vs.get ⟨t, ht⟩ := by
  induction vs generalizing h t with
  | nil => exact absurd ht (by simp)
  | cons v vs ih =>
      cases t with
      | zero =>
          rw [List.foldl_cons, historico_fold_intocado]
          · show (if h.indice + ((0 : ℕ) : Fin 128) = h.indice then v
                  else h.dados (h.indice + ((0 : ℕ) : Fin 128))) =
              (v :: vs).get ⟨0, ht⟩
            simp
          · intro u hu
            show (atualizar_historico h v).indice + (u : Fin 128) ≠
              h.indice + ((0 : ℕ) : Fin 128)
            have hu128 : u + 1 < 128 := by
              simp only [List.length_cons] at hlen
              omega
            have hval : (((u + 1 : ℕ) : Fin 128)).val = u + 1 :=
              Fin.val_cast_of_lt hu128
            simp only [atualizar_historico, Nat.cast_zero, add_zero]
            rw [add_assoc]
            intro hcontra
            have hx : (1 + (u : Fin 128)) = 0 := by
              have hc2 : h.indice + (1 + (u : Fin 128)) = h.indice + 0 := by
                simpa using hcontra
              exact add_left_cancel hc2
            rw [add_comm] at hx
            have : (((u + 1 : ℕ) : Fin 128)) = 0 := by
              push_cast
              exact hx
            rw [Fin.ext_iff, hval] at this
            simp at this
      | succ s =>
          rw [List.foldl_cons]
          have hidx : (atualizar_historico h v).indice + (s : Fin 128) =
              h.indice + ((s + 1 : ℕ) : Fin 128) := by
            simp only [atualizar_historico]
            push_cast
            ring
          have hlen2 : vs.length ≤ 128 := by
            simp only [List.length_cons] at hlen
            omega
          have hts : s < vs.length := by
            simpa using ht
          have := ih (atualizar_historico h v) hlen2 s hts
          rw [hidx] at this
          rw [this]
          rfl

end Ruido

namespace Ruido

/-- C7: the history is a fixed 128-entry ring.  After pushing `128 + k`
values onto any starting buffer, every cell holds one of the last 128
pushed values, and reading positions `(write_index + i) % 128` for
`i = 0..127` (exactly how `atualizar_display` iterates the graph)
returns those 128 values in chronological order, oldest first: position
`i` holds push number `k + i`.  The buffer holds exactly 128 entries by
construction (`dados : Fin 128 → ℚ`). -/
theorem historico_circular_geral (vs : List ℚ) (h0 : Historico) (k : ℕ)
    (hlen : vs.length = 128 + k) (i : Fin 128) :
    (vs.foldl atualizar_historico h0).dados
        ((vs.foldl atualizar_historico h0).indice + i) =
      vs.get ⟨k + i.val, by omega⟩ := by
  have hfold : vs.foldl atualizar_historico h0 =
      (vs.drop k).foldl atualizar_historico
        ((vs.take k).foldl atualizar_historico h0) := by
    conv_lhs => rw [← List.take_append_drop k vs, List.foldl_append]
  have hdlen : (vs.drop k).length = 128 := by
    simp [hlen]
  have hidx : ((vs.drop k).foldl atualizar_historico
      ((vs.take k).foldl atualizar_historico h0)).indice =
      ((vs.take k).foldl atualizar_historico h0).indice := by
    rw [historico_fold_indice, hdlen]
    simp [Fin.natCast_self]
  have key := historico_fold_preenche (vs.drop k)
      ((vs.take k).foldl atualizar_historico h0) (by omega) i.val
      (by omega)
  rw [Fin.cast_val_eq_self] at key
  rw [hfold, hidx, key]
  simp only [List.get_eq_getElem]
  exact (List.getElem_drop' vs _).symm

end Ruido

namespace Ruido

/-- `2^32`, the modulus of the `uint32_t` microsecond clock. -/
def U32 : ℕ := 4294967296

/-- `debounce_delay` (line 260): 200 ms in microseconds. -/
def debounce_delay : ℕ := 200000

/-- Button-handler state: the `static uint32_t last_press` of
`verificar_botoes` plus the global `limite_atual_db`.  `last_press`
starts at `0` and `limite_atual_db` at `LIMITE_DB = 100.0`. -/
structure BotoesEstado where
  last_press : ℕ
  limite_atual_db : ℚ
deriving DecidableEq, Repr

/-- `verificar_botoes` (lines 258-270).  `tempo` is the absolute time in
microseconds; the hardware clock reads `tempo % 2^32` and the unsigned
subtraction `time_us_32() - last_press` wraps modulo `2^32`.  The
buttons are active-low: `gpioA`/`gpioB` are the raw GPIO reads and the
branch fires on `!gpio_get(...)`. -/
def verificar_botoes (st : BotoesEstado) (tempo : ℕ)
    (gpioA gpioB : Bool) : BotoesEstado :=
  if (tempo % U32 + U32 - st.last_press) % U32 < debounce_delay then st
  else
    let l1 := if !gpioA then min 120 (st.limite_atual_db + 1)
              else st.limite_atual_db
    let l2 := if !gpioB then max 30 (l1 - 1) else l1
    { last_press := tempo % U32, limite_atual_db := l2 }

/-- Initial button state at boot (`last_press = 0`, threshold 100 dB). -/
def botoes_inicial : BotoesEstado := { last_press := 0, limite_atual_db := 100 }

/-- `(leitura_adc * 3.3f) / 4096.0f` (line 171): raw → volts. -/
def tensao_adc (leitura_adc : ℕ) : ℚ := (leitura_adc * (33/10)) / 4096

/-- One iteration of the sampling loop of `ler_decibeis` (lines 168-178)
acting on the pair (DC offset, accumulated sum of squares). -/
def ler_decibeis_amostra (st : ℚ × ℚ) (leitura_adc : ℕ) : ℚ × ℚ :=
  let tensao := tensao_adc leitura_adc
  let offset_dc := (95/100) * st.1 + (5/100) * tensao
  let tensao_ac := (tensao - offset_dc) * 10
  (offset_dc, st.2 + tensao_ac * tensao_ac)

/-- `ler_decibeis` (lines 164-182), parameterised by the batch of raw
ADC readings and the incoming value of the `static float offset_dc`.
The sum of squares is divided by `AMOSTRAS = 64`, the RMS passes
through `20*log10(rms/CALIBRACAO + 1e-12)` with `CALIBRACAO = 0.00002f`,
and the result is floored at `30.0`. -/
noncomputable def ler_decibeis (amostras : List ℕ) (offset_entrada : ℚ) : ℝ :=
  max 30 (20 * Real.logb 10
    (Real.sqrt
        (((amostras.foldl ler_decibeis_amostra (offset_entrada, 0)).2 : ℝ)
          / 64) / (2/100000) + 1/1000000000000))

/-- The per-sample update that claim C3 attributes to the estimator:
identical to `ler_decibeis_amostra` except that the voltage conversion
divides by `4095` (the claim's full-scale) instead of the code's `4096`. -/
def amostra_reivindicada (st : ℚ × ℚ) (leitura_adc : ℕ) : ℚ × ℚ :=
  let tensao := (leitura_adc * (33/10)) / 4095
  let offset_dc := (95/100) * st.1 + (5/100) * tensao
  let tensao_ac := (tensao - offset_dc) * 10
  (offset_dc, st.2 + tensao_ac * tensao_ac)

/-- Voltage conversion as in the amended claim: `raw * 3.3 / 4096`. -/
def volts_espec (leitura_adc : ℕ) : ℚ := (leitura_adc * (33/10)) / 4096

/-- The sequence of gained AC components described by the claim: for
each sample, convert to volts, refresh the exponential moving average
`offset = 0.95*offset + 0.05*volts`, and emit `(volts - offset) * 10`. -/
def lista_ac_espec : ℚ → List ℕ → List ℚ
  | _, [] => []
  | offset, leitura :: resto =>
    let v := volts_espec leitura
    let o := (95/100) * offset + (5/100) * v
    ((v - o) * 10) :: lista_ac_espec o resto

/-- The level value described by the (amended) claim C3, built from the
claim's own decomposition: AC list, RMS of the squares over 64, then
`max(30, 20*log10(rms/0.00002 + 1e-12))`. -/
noncomputable def nivel_espec (amostras : List ℕ) (offset_entrada : ℚ) : ℝ :=
  max 30 (20 * Real.logb 10
    (Real.sqrt
        (((((lista_ac_espec offset_entrada amostras).map
            (fun a => a * a)).sum : ℚ) : ℝ) / 64) / (2/100000)
      + 1/1000000000000))

end Ruido

namespace Ruido

/-- A C cast `(int)x` of a float: truncation toward zero. -/
def trunca (x : ℚ) : ℤ := if 0 ≤ x then ⌊x⌋ else ⌈x⌉

/-- `obter_valor_maximo(historico, TAMANHO_HISTORICO)` (lines 152-158):
running maximum over all 128 cells, seeded with cell 0. -/
def obter_valor_maximo (d : Fin 128 → ℚ) : ℚ :=
  ((List.finRange 128).drop 1).foldl
    (fun m i => if d i > m then d i else m) (d 0)

/-- The graph auto-scale factor (line 207): `40/max` when the history
maximum exceeds `40.0`, else `1.0`. -/
def escala_grafico (d : Fin 128 → ℚ) : ℚ :=
  if obter_valor_maximo d > 40 then 40 / obter_valor_maximo d else 1

/-- The 128 vertical pixel positions of the history graph
(lines 208-212): point `i` plots cell `(indice_historico + i) % 128` at
height `40 - (int)(valor * escala)`. -/
def pontos_grafico (h : Historico) : List ℤ :=
  (List.finRange 128).map fun i =>
    40 - trunca (h.dados (h.indice + i) * escala_grafico h.dados)

/-- Abstract content of the frame composed for one cycle: the
statistics screen with the literal alert counter, the fixed alert
banner, or the monitoring screen (level, mode label, threshold and, in
`MONITORAMENTO` mode, the scaled history graph). -/
inductive Tela where
  | estatisticas (contador_alertas : ℕ)
  | alerta
  | monitor (db : ℚ) (modo : Modo) (limite : ℚ) (grafico : Option (List ℤ))
deriving DecidableEq

/-- `atualizar_display` (lines 188-218): always draws the numeric
level, the mode label and the threshold; the graph only in
`MONITORAMENTO` mode. -/
def atualizar_display (db limite : ℚ) (modo : Modo) (h : Historico) : Tela :=
  Tela.monitor db modo limite
    (if modo = Modo.MONITORAMENTO then some (pontos_grafico h) else none)

/-- The screen selection of the main loop (lines 127-143): statistics
mode wins, then the alert banner, then the monitoring screen. -/
def compor_tela (modo : Modo) (alerta : Bool) (db limite : ℚ)
    (h : Historico) (contador : ℕ) : Tela :=
  if modo = Modo.ESTATISTICAS then Tela.estatisticas contador
  else if alerta then Tela.alerta
  else atualizar_display db limite modo h

theorem obter_valor_maximo_const (c : ℚ) :
    obter_valor_maximo (fun _ => c) = c := by
  unfold obter_valor_maximo
  generalize (List.finRange 128).drop 1 = l
  induction l with
  | nil => rfl
  | cons i l ih => simpa [ite_self] using ih

end Ruido

namespace Ruido

open Modo

/-- C1: the alert counter is edge-triggered.  Over any sequence of
cycle conditions the counter grows by exactly the number of
false→true transitions (so sustained true→true cycles and true→false
cycles leave it unchanged), and a cycle whose condition equals the
previous one leaves the whole buzzer state untouched: no counter
change and no tone-generator reconfiguration. -/
theorem contador_alertas_por_borda :
    (∀ (st : BuzzerEstado) (condicoes : List Bool),
      (condicoes.foldl acionar_buzzer st).contador_alertas =
        st.contador_alertas + conta_subidas st.estado_anterior condicoes) ∧
    (∀ (st : BuzzerEstado) (estado : Bool),
      estado = st.estado_anterior → acionar_buzzer st estado = st) :=
  ⟨fun st condicoes => acionar_buzzer_fold condicoes st,
   fun st estado h => by simp [acionar_buzzer, h]⟩

/-- Application of `contador_alertas_por_borda` at concrete inputs:
two rising edges in the sequence, and an unchanged sustained cycle. -/
theorem contador_alertas_por_borda_aplicacao :
    (([true, true, false, true].foldl acionar_buzzer
        ⟨false, 0, ⟨0, 0, false⟩⟩).contador_alertas =
      (⟨false, 0, ⟨0, 0, false⟩⟩ : BuzzerEstado).contador_alertas +
        conta_subidas (⟨false, 0, ⟨0, 0, false⟩⟩ : BuzzerEstado).estado_anterior
          [true, true, false, true]) ∧
    acionar_buzzer ⟨true, 3, ⟨3125, 1562, true⟩⟩ true =
      ⟨true, 3, ⟨3125, 1562, true⟩⟩ :=
  ⟨contador_alertas_por_borda.1 ⟨false, 0, ⟨0, 0, false⟩⟩
      [true, true, false, true],
   contador_alertas_por_borda.2 ⟨true, 3, ⟨3125, 1562, true⟩⟩ true rfl⟩

/-- C2: the alert condition of each cycle is exactly
`(level > threshold) AND (mode ≠ Statistics)`: it is suppressed in
Statistics mode even when the level exceeds the threshold, and it is
raised outside Statistics mode whenever the level exceeds the
threshold. -/
theorem alerta_cond_formula :
    (∀ (db limite : ℚ) (modo : Modo),
      alerta_cond db limite modo = true ↔
        db > limite ∧ modo ≠ ESTATISTICAS) ∧
    (∀ db limite : ℚ, db > limite →
      alerta_cond db limite ESTATISTICAS = false) ∧
    (∀ (db limite : ℚ) (modo : Modo), db > limite → modo ≠ ESTATISTICAS →
      alerta_cond db limite modo = true) := by
  refine ⟨fun db limite modo => ?_, fun db limite h => ?_,
    fun db limite modo h1 h2 => ?_⟩
  · simp [alerta_cond]
  · simp [alerta_cond]
  · simp [alerta_cond, h1, h2]

/-- Application of `alerta_cond_formula` at the spec's example:
level 105, threshold 100 — suppressed in Statistics mode, raised in
Monitoring mode. -/
theorem alerta_cond_formula_aplicacao :
    alerta_cond 105 100 ESTATISTICAS = false ∧
    alerta_cond 105 100 MONITORAMENTO = true :=
  ⟨alerta_cond_formula.2.1 105 100 (by norm_num),
   alerta_cond_formula.2.2 105 100 MONITORAMENTO (by norm_num) (by decide)⟩

theorem verificar_joystick_nunca_alerta (m : Modo) (leitura : ℕ)
    (hm : m ≠ ALERTA) : verificar_joystick m leitura ≠ ALERTA := by
  simp only [verificar_joystick]
  split
  · simp
  · split
    · simp
    · exact hm

theorem joystick_fold_nunca_alerta (leituras : List ℕ) (m : Modo)
    (hm : m ≠ ALERTA) :
    leituras.foldl verificar_joystick m ≠ ALERTA := by
  induction leituras generalizing m with
  | nil => exact hm
  | cons l ls ih =>
      exact ih _ (verificar_joystick_nunca_alerta m l hm)

/-- C9: the joystick mapping on the normalised position
`p = leitura/4096`: `p < 0.3` selects Monitoring, `p > 0.7` selects
Statistics, the dead zone `[0.3, 0.7]` keeps the mode; consequently,
starting from the boot mode `MONITORAMENTO`, no input sequence ever
reaches `ALERTA`. -/
theorem verificar_joystick_modos :
    (∀ (m : Modo) (leitura : ℕ), (leitura : ℚ) / 4096 < 3/10 →
      verificar_joystick m leitura = MONITORAMENTO) ∧
    (∀ (m : Modo) (leitura : ℕ), (leitura : ℚ) / 4096 > 7/10 →
      verificar_joystick m leitura = ESTATISTICAS) ∧
    (∀ (m : Modo) (leitura : ℕ), 3/10 ≤ (leitura : ℚ) / 4096 →
      (leitura : ℚ) / 4096 ≤ 7/10 → verificar_joystick m leitura = m) ∧
    (∀ leituras : List ℕ,
      leituras.foldl verificar_joystick MONITORAMENTO ≠ ALERTA) := by
  refine ⟨fun m leitura h => ?_, fun m leitura h => ?_,
    fun m leitura h1 h2 => ?_,
    fun leituras => joystick_fold_nunca_alerta leituras _ (by decide)⟩
  · simp only [verificar_joystick]
    rw [if_pos h]
  · simp only [verificar_joystick]
    rw [if_neg (by linarith), if_pos h]
  · simp only [verificar_joystick]
    rw [if_neg (by linarith), if_neg (by linarith)]

/-- Application of `verificar_joystick_modos` at concrete readings:
100/4096 ≈ 0.024, 4000/4096 ≈ 0.977, 2000/4096 ≈ 0.488. -/
theorem verificar_joystick_modos_aplicacao :
    verificar_joystick ESTATISTICAS 100 = MONITORAMENTO ∧
    verificar_joystick MONITORAMENTO 4000 = ESTATISTICAS ∧
    verificar_joystick ESTATISTICAS 2000 = ESTATISTICAS ∧
    [100, 4000, 2000].foldl verificar_joystick MONITORAMENTO ≠ ALERTA :=
  ⟨verificar_joystick_modos.1 ESTATISTICAS 100 (by norm_num),
   verificar_joystick_modos.2.1 MONITORAMENTO 4000 (by norm_num),
   verificar_joystick_modos.2.2.1 ESTATISTICAS 2000 (by norm_num)
     (by norm_num),
   verificar_joystick_modos.2.2.2 [100, 4000, 2000]⟩

end Ruido

namespace Ruido

/-- The debounce gate of `verificar_botoes` accepts the call: at least
200 ms of (wrapped) clock have elapsed since `last_press`. -/
def botoes_aceita (st : BotoesEstado) (tempo : ℕ) : Prop :=
  debounce_delay ≤ (tempo % U32 + U32 - st.last_press) % U32

/-- A run of the button handler over a list of calls, each a triple
(absolute time in µs, raw GPIO A, raw GPIO B). -/
def botoes_exec (eventos : List (ℕ × Bool × Bool))
    (st : BotoesEstado) : BotoesEstado :=
  eventos.foldl (fun s e => verificar_botoes s e.1 e.2.1 e.2.2) st

theorem verificar_botoes_recusada (st : BotoesEstado) (t_ant tempo : ℕ)
    (a b : Bool) (hlp : st.last_press = t_ant % U32) (h1 : t_ant ≤ tempo)
    (h2 : tempo - t_ant < 200000) : verificar_botoes st tempo a b = st := by
  have hc : (tempo % U32 + U32 - st.last_press) % U32 < debounce_delay := by
    rw [hlp]
    unfold U32 debounce_delay
    omega
  unfold verificar_botoes
  simp only [if_pos hc]

theorem verificar_botoes_aceita_eq (st : BotoesEstado) (tempo : ℕ)
    (a b : Bool) (h : botoes_aceita st tempo) :
    verificar_botoes st tempo a b =
      { last_press := tempo % U32,
        limite_atual_db :=
          if !b then
            max 30 ((if !a then min 120 (st.limite_atual_db + 1)
                     else st.limite_atual_db) - 1)
          else
            (if !a then min 120 (st.limite_atual_db + 1)
             else st.limite_atual_db) } := by
  unfold botoes_aceita at h
  unfold verificar_botoes
  simp only [if_neg (not_lt.mpr h)]

instance (st : BotoesEstado) (tempo : ℕ) :
    Decidable (botoes_aceita st tempo) := by
  unfold botoes_aceita
  infer_instance

theorem verificar_botoes_intervalo (st : BotoesEstado) (tempo : ℕ)
    (a b : Bool) (h30 : 30 ≤ st.limite_atual_db)
    (h120 : st.limite_atual_db ≤ 120) :
    30 ≤ (verificar_botoes st tempo a b).limite_atual_db ∧
      (verificar_botoes st tempo a b).limite_atual_db ≤ 120 := by
  by_cases hg : (tempo % U32 + U32 - st.last_press) % U32 < debounce_delay
  · unfold verificar_botoes
    simp only [if_pos hg]
    exact ⟨h30, h120⟩
  · rw [verificar_botoes_aceita_eq st tempo a b (not_lt.mp hg)]
    dsimp only
    have h1 : 30 ≤ (if !a then min 120 (st.limite_atual_db + 1)
          else st.limite_atual_db) ∧
        (if !a then min 120 (st.limite_atual_db + 1)
          else st.limite_atual_db) ≤ 120 := by
      split
      · exact ⟨le_min (by norm_num) (by linarith), min_le_left _ _⟩
      · exact ⟨h30, h120⟩
    constructor
    · split
      · exact le_max_left _ _
      · exact h1.1
    · split
      · exact max_le (by norm_num) (by linarith [h1.2])
      · exact h1.2

theorem botoes_exec_intervalo (eventos : List (ℕ × Bool × Bool))
    (st : BotoesEstado) (h30 : 30 ≤ st.limite_atual_db)
    (h120 : st.limite_atual_db ≤ 120) :
    30 ≤ (botoes_exec eventos st).limite_atual_db ∧
      (botoes_exec eventos st).limite_atual_db ≤ 120 := by
  induction eventos generalizing st with
  | nil => exact ⟨h30, h120⟩
  | cons e es ih =>
      have step := verificar_botoes_intervalo st e.1 e.2.1 e.2.2 h30 h120
      simpa [botoes_exec, List.foldl_cons] using
        ih (verificar_botoes st e.1 e.2.1 e.2.2) step.1 step.2

/-- C5: the threshold stays in `[30, 120]` from the default `100.0`
over any run of button calls; a debounce-accepted call with only A
active (GPIO low) adds `1.0` clamped at `120`, with only B active it
subtracts `1.0` clamped at `30`, and with both active it applies both
adjustments in the same call. -/
theorem limite_intervalo :
    (∀ eventos : List (ℕ × Bool × Bool),
      30 ≤ (botoes_exec eventos botoes_inicial).limite_atual_db ∧
        (botoes_exec eventos botoes_inicial).limite_atual_db ≤ 120) ∧
    (∀ (st : BotoesEstado) (tempo : ℕ), botoes_aceita st tempo →
      (verificar_botoes st tempo false true).limite_atual_db =
        min 120 (st.limite_atual_db + 1)) ∧
    (∀ (st : BotoesEstado) (tempo : ℕ), botoes_aceita st tempo →
      (verificar_botoes st tempo true false).limite_atual_db =
        max 30 (st.limite_atual_db - 1)) ∧
    (∀ (st : BotoesEstado) (tempo : ℕ), botoes_aceita st tempo →
      (verificar_botoes st tempo false false).limite_atual_db =
        max 30 (min 120 (st.limite_atual_db + 1) - 1)) := by
  refine ⟨fun eventos => botoes_exec_intervalo eventos botoes_inicial
      (by norm_num [botoes_inicial]) (by norm_num [botoes_inicial]),
    fun st tempo h => ?_, fun st tempo h => ?_, fun st tempo h => ?_⟩ <;>
    rw [verificar_botoes_aceita_eq st tempo _ _ h] <;> simp

/-- Application of `limite_intervalo` at concrete inputs: one accepted
increment from the initial state, and the three accepted-call shapes
from threshold 100 at time 500000 µs. -/
theorem limite_intervalo_aplicacao :
    (30 ≤ (botoes_exec [(500000, false, true)]
        botoes_inicial).limite_atual_db ∧
      (botoes_exec [(500000, false, true)]
        botoes_inicial).limite_atual_db ≤ 120) ∧
    (verificar_botoes ⟨0, 100⟩ 500000 false true).limite_atual_db =
      min 120 (100 + 1) ∧
    (verificar_botoes ⟨0, 100⟩ 500000 true false).limite_atual_db =
      max 30 (100 - 1) ∧
    (verificar_botoes ⟨0, 100⟩ 500000 false false).limite_atual_db =
      max 30 (min 120 (100 + 1) - 1) :=
  ⟨limite_intervalo.1 [(500000, false, true)],
   limite_intervalo.2.1 ⟨0, 100⟩ 500000 (by decide),
   limite_intervalo.2.2.1 ⟨0, 100⟩ 500000 (by decide),
   limite_intervalo.2.2.2 ⟨0, 100⟩ 500000 (by decide)⟩

end Ruido

namespace Ruido

/-- C6: both buttons share the single 200 ms debounce window of
`verificar_botoes`.  A call made less than 200 ms of real time after
the call that last set `last_press` is a no-op; an accepted call with
either button pressed (GPIO low) resets the shared timestamp; and any
two calls spaced less than 200 ms apart change the threshold at most
once between them. -/
theorem debounce_compartilhado :
    (∀ (st : BotoesEstado) (t_ant tempo : ℕ) (a b : Bool),
      st.last_press = t_ant % U32 → t_ant ≤ tempo →
      tempo - t_ant < 200000 → verificar_botoes st tempo a b = st) ∧
    (∀ (st : BotoesEstado) (tempo : ℕ) (a b : Bool),
      botoes_aceita st tempo → (a = false ∨ b = false) →
      (verificar_botoes st tempo a b).last_press = tempo % U32) ∧
    (∀ (st : BotoesEstado) (t1 t2 : ℕ) (a1 b1 a2 b2 : Bool),
      t1 ≤ t2 → t2 - t1 < 200000 →
      ¬((verificar_botoes st t1 a1 b1).limite_atual_db ≠
          st.limite_atual_db ∧
        (verificar_botoes (verificar_botoes st t1 a1 b1)
            t2 a2 b2).limite_atual_db ≠
          (verificar_botoes st t1 a1 b1).limite_atual_db)) := by
  refine ⟨fun st t_ant tempo a b hlp h1 h2 =>
      verificar_botoes_recusada st t_ant tempo a b hlp h1 h2,
    fun st tempo a b h _ => ?_, fun st t1 t2 a1 b1 a2 b2 h1 h2 => ?_⟩
  · rw [verificar_botoes_aceita_eq st tempo a b h]
  · by_cases hg : (t1 % U32 + U32 - st.last_press) % U32 < debounce_delay
    · intro hcon
      apply hcon.1
      unfold verificar_botoes
      simp only [if_pos hg]
    · intro hcon
      apply hcon.2
      have hs1 : (verificar_botoes st t1 a1 b1).last_press = t1 % U32 := by
        rw [verificar_botoes_aceita_eq st t1 a1 b1 (not_lt.mp hg)]
      rw [verificar_botoes_recusada (verificar_botoes st t1 a1 b1)
        t1 t2 a2 b2 hs1 h1 h2]

/-- Application of `debounce_compartilhado` at concrete inputs: a call
100 ms after a press is a no-op, an accepted call at 500 ms resets the
timestamp, and two calls 100 ms apart adjust at most once. -/
theorem debounce_compartilhado_aplicacao :
    verificar_botoes ⟨300000 % U32, 100⟩ 400000 false true =
      ⟨300000 % U32, 100⟩ ∧
    (verificar_botoes ⟨0, 100⟩ 500000 false true).last_press =
      500000 % U32 ∧
    ¬((verificar_botoes ⟨0, 100⟩ 500000 false true).limite_atual_db ≠
        (⟨0, 100⟩ : BotoesEstado).limite_atual_db ∧
      (verificar_botoes (verificar_botoes ⟨0, 100⟩ 500000 false true)
          600000 false true).limite_atual_db ≠
        (verificar_botoes ⟨0, 100⟩ 500000 false true).limite_atual_db) :=
  ⟨debounce_compartilhado.1 ⟨300000 % U32, 100⟩ 300000 400000 false true
      rfl (by norm_num) (by norm_num),
   debounce_compartilhado.2.1 ⟨0, 100⟩ 500000 false true (by decide)
      (Or.inl rfl),
   debounce_compartilhado.2.2 ⟨0, 100⟩ 500000 600000 false true false true
      (by norm_num) (by norm_num)⟩

/-- C10: a call of `verificar_botoes` that passes the debounce gate
rewrites `last_press` to the current (wrapped) time even when neither
button is pressed (both GPIOs read high) and leaves the threshold
untouched; consequently a press arriving less than 200 ms after such a
button-less accepted evaluation adjusts nothing. -/
theorem botoes_marca_tempo :
    (∀ (st : BotoesEstado) (tempo : ℕ), botoes_aceita st tempo →
      verificar_botoes st tempo true true =
        { last_press := tempo % U32,
          limite_atual_db := st.limite_atual_db }) ∧
    (∀ (st : BotoesEstado) (t1 t2 : ℕ) (a b : Bool),
      botoes_aceita st t1 → t1 ≤ t2 → t2 - t1 < 200000 →
      verificar_botoes (verificar_botoes st t1 true true) t2 a b =
        verificar_botoes st t1 true true) := by
  have parte1 : ∀ (st : BotoesEstado) (tempo : ℕ), botoes_aceita st tempo →
      verificar_botoes st tempo true true =
        { last_press := tempo % U32,
          limite_atual_db := st.limite_atual_db } := by
    intro st tempo h
    rw [verificar_botoes_aceita_eq st tempo true true h]
    simp
  refine ⟨parte1, fun st t1 t2 a b h h1 h2 => ?_⟩
  apply verificar_botoes_recusada _ t1 t2 a b _ h1 h2
  rw [parte1 st t1 h]

/-- Application of `botoes_marca_tempo`: an accepted call at 500 ms
with no button pressed still stamps `last_press`, and a press at
600 ms is then ignored. -/
theorem botoes_marca_tempo_aplicacao :
    verificar_botoes ⟨0, 100⟩ 500000 true true =
      ({ last_press := 500000 % U32, limite_atual_db := 100 } :
        BotoesEstado) ∧
    verificar_botoes (verificar_botoes ⟨0, 100⟩ 500000 true true)
        600000 false false =
      verificar_botoes ⟨0, 100⟩ 500000 true true :=
  ⟨botoes_marca_tempo.1 ⟨0, 100⟩ 500000 (by decide),
   botoes_marca_tempo.2 ⟨0, 100⟩ 500000 600000 false false (by decide)
      (by norm_num) (by norm_num)⟩

end Ruido

namespace Ruido

open Modo

/-- Application of `historico_circular_geral`: 129 pushes of the values
0..128 onto the zeroed buffer; reading offset 0 from the final write
index returns push number 1, the oldest surviving value. -/
theorem historico_circular_aplicacao :
    (((List.range 129).map (fun n : ℕ => (n : ℚ))).foldl atualizar_historico
        ⟨fun _ => 0, 0⟩).dados
      ((((List.range 129).map (fun n : ℕ => (n : ℚ))).foldl atualizar_historico
        ⟨fun _ => 0, 0⟩).indice + (0 : Fin 128)) =
      ((List.range 129).map (fun n : ℕ => (n : ℚ))).get
        ⟨1 + (0 : Fin 128).val,
          by rw [List.length_map, List.length_range]; norm_num⟩ :=
  historico_circular_geral ((List.range 129).map (fun n : ℕ => (n : ℚ)))
    ⟨fun _ => 0, 0⟩ 1 (by rw [List.length_map, List.length_range]) 0

/-- C8: each cycle composes exactly one screen with priority:
Statistics mode always yields the statistics screen carrying the
literal alert counter, regardless of level or alert condition;
otherwise a true alert condition yields the fixed alert banner;
otherwise the monitoring screen carries the numeric level, the mode
label, the threshold and the history graph.  The graph scale factor is
`40/max` when the history maximum exceeds `40.0` and `1.0` otherwise
(so max 20 → scale 1 and max 80 → scale 1/2), and graph point `i`
sits at height `40 - (int)(valor * escala)` for the value read at
`(indice + i) % 128`. -/
theorem compor_tela_prioridade :
    (∀ (alerta : Bool) (db limite : ℚ) (h : Historico) (c : ℕ),
      compor_tela ESTATISTICAS alerta db limite h c =
        Tela.estatisticas c) ∧
    (∀ (modo : Modo) (db limite : ℚ) (h : Historico) (c : ℕ),
      modo ≠ ESTATISTICAS →
      compor_tela modo true db limite h c = Tela.alerta) ∧
    (∀ (db limite : ℚ) (h : Historico) (c : ℕ),
      compor_tela MONITORAMENTO false db limite h c =
        Tela.monitor db MONITORAMENTO limite (some (pontos_grafico h))) ∧
    (∀ d : Fin 128 → ℚ, obter_valor_maximo d = 20 →
      escala_grafico d = 1) ∧
    (∀ d : Fin 128 → ℚ, obter_valor_maximo d = 80 →
      escala_grafico d = 1/2) ∧
    (∀ (h : Historico) (i : Fin 128),
      (pontos_grafico h).get ⟨i.val, by simp [pontos_grafico]⟩ =
        40 - trunca (h.dados (h.indice + i) * escala_grafico h.dados)) := by
  refine ⟨fun alerta db limite h c => ?_, fun modo db limite h c hm => ?_,
    fun db limite h c => ?_, fun d hd => ?_, fun d hd => ?_,
    fun h i => ?_⟩
  · simp [compor_tela]
  · simp [compor_tela, hm]
  · simp [compor_tela, atualizar_display]
  · rw [escala_grafico, hd]
    norm_num
  · rw [escala_grafico, hd]
    norm_num
  · simp [pontos_grafico, List.get_eq_getElem, List.getElem_map,
      List.getElem_finRange, Fin.eta]

/-- Application of `compor_tela_prioridade`: the alert banner in
Monitoring mode under a true alert condition, and both concrete scale
factors via constant histories. -/
theorem compor_tela_prioridade_aplicacao :
    compor_tela MONITORAMENTO true 105 100 ⟨fun _ => 20, 0⟩ 7 =
      Tela.alerta ∧
    escala_grafico (fun _ => 20) = 1 ∧
    escala_grafico (fun _ => 80) = 1/2 :=
  ⟨compor_tela_prioridade.2.1 MONITORAMENTO 105 100 ⟨fun _ => 20, 0⟩ 7
      (by decide),
   compor_tela_prioridade.2.2.2.1 (fun _ => 20)
      (obter_valor_maximo_const 20),
   compor_tela_prioridade.2.2.2.2.1 (fun _ => 80)
      (obter_valor_maximo_const 80)⟩

end Ruido

namespace Ruido

theorem ler_decibeis_fixo : ∀ (amostras : List ℕ) (offset0 s : ℚ),
    (∀ r ∈ amostras, tensao_adc r = offset0) →
    amostras.foldl ler_decibeis_amostra (offset0, s) = (offset0, s)
  | [], _, _, _ => rfl
  | r :: rs, offset0, s, h => by
      have hr : tensao_adc r = offset0 := h r (List.mem_cons_self r rs)
      have hstep : ler_decibeis_amostra (offset0, s) r = (offset0, s) := by
        simp only [ler_decibeis_amostra, hr, Prod.mk.injEq]
        constructor <;> ring
      rw [List.foldl_cons, hstep]
      exact ler_decibeis_fixo rs offset0 s
        (fun x hx => h x (List.mem_cons_of_mem r hx))

/-- C4: the estimator output is floored at 30.0 for every batch and
every starting offset; and whenever every sampled voltage equals the
tracked DC offset (so the batch RMS is zero) the output is exactly
30.0 — never negative infinity — thanks to the `1e-12f` epsilon added
before the logarithm. -/
theorem ler_decibeis_piso :
    (∀ (amostras : List ℕ) (offset0 : ℚ),
      30 ≤ ler_decibeis amostras offset0) ∧
    (∀ (amostras : List ℕ) (offset0 : ℚ),
      (∀ r ∈ amostras, tensao_adc r = offset0) →
      ler_decibeis amostras offset0 = 30) := by
  constructor
  · intro amostras offset0
    exact le_max_left 30 _
  · intro amostras offset0 h
    unfold ler_decibeis
    rw [ler_decibeis_fixo amostras offset0 0 h]
    have hlog : Real.logb 10 (1/1000000000000) < 0 :=
      Real.logb_neg (by norm_num) (by norm_num) (by norm_num)
    have harg : Real.sqrt ((0:ℝ) / 64) / (2/100000)
        + 1/1000000000000 = 1/1000000000000 := by
      norm_num
    dsimp only
    rw [Rat.cast_zero, harg]
    exact max_eq_left (by nlinarith [hlog])

/-- Application of `ler_decibeis_piso`: the floor on a loud constant
batch, and the exact 30.0 output on the all-zero batch (whose voltages
all equal the zero starting offset). -/
theorem ler_decibeis_piso_aplicacao :
    30 ≤ ler_decibeis (List.replicate 64 4095) 0 ∧
    ler_decibeis (List.replicate 64 0) 0 = 30 :=
  ⟨ler_decibeis_piso.1 (List.replicate 64 4095) 0,
   ler_decibeis_piso.2 (List.replicate 64 0) 0 (by
     intro r hr
     rw [List.eq_of_mem_replicate hr]
     simp [tensao_adc])⟩

/-- C3 counterexample: at raw sample 4095 with DC offset 0 the
estimator's per-sample computation — whose voltage conversion divides
by `4096.0f` in the code (line 171) — differs from the per-sample
computation the claim describes, whose voltage is `raw * 3.3 / 4095`;
so the claimed formula is false at this input. -/
theorem ler_decibeis_formula_contraexemplo :
    ler_decibeis_amostra (0, 0) 4095 ≠ amostra_reivindicada (0, 0) 4095 := by
  simp only [ler_decibeis_amostra, amostra_reivindicada, tensao_adc,
    Prod.mk.injEq, not_and]
  intro h1
  norm_num at h1

theorem ler_decibeis_soma (amostras : List ℕ) : ∀ (offset0 s : ℚ),
    (amostras.foldl ler_decibeis_amostra (offset0, s)).2 =
      s + ((lista_ac_espec offset0 amostras).map (fun a => a * a)).sum := by
  induction amostras with
  | nil =>
      intro o s
      simp [lista_ac_espec]
  | cons r rs ih =>
      intro o s
      rw [List.foldl_cons]
      have hstep : ler_decibeis_amostra (o, s) r =
          ((95/100) * o + (5/100) * volts_espec r,
           s + ((volts_espec r - ((95/100) * o + (5/100) * volts_espec r))
                  * 10) *
               ((volts_espec r - ((95/100) * o + (5/100) * volts_espec r))
                  * 10)) := rfl
      rw [hstep, ih]
      simp only [lista_ac_espec, List.map_cons, List.sum_cons]
      ring

/-- C3 (amended: the voltage conversion divides by 4096, the code's
full-scale constant, not 4095): for every batch of 64 raw samples and
every starting DC offset the estimator computes exactly
`voltage = raw*3.3/4096` per sample, the offset update
`offset' = 0.95*offset + 0.05*voltage`, `AC = (voltage - offset')*10`,
`rms = sqrt(sum of AC squares / 64)` and
`max(30, 20*log10(rms/0.00002 + 1e-12))` — stated as equality with the
claim-shaped pipeline `nivel_espec`. -/
theorem ler_decibeis_formula (amostras : List ℕ) (offset0 : ℚ)
    (_hlen : amostras.length = 64) :
    ler_decibeis amostras offset0 = nivel_espec amostras offset0 := by
  unfold ler_decibeis nivel_espec
  rw [ler_decibeis_soma amostras offset0 0]
  norm_num

/-- Application of `ler_decibeis_formula` on a batch of 64 samples. -/
theorem ler_decibeis_formula_aplicacao :
    (List.replicate 64 (4095:ℕ)).length = 64 ∧
    ler_decibeis (List.replicate 64 4095) (1/2) =
      nivel_espec (List.replicate 64 4095) (1/2) :=
  ⟨by simp, ler_decibeis_formula (List.replicate 64 4095) (1/2) (by simp)⟩

end Ruido
